import Mathlib

/-!  A shallow embedding of the client-side session and data-sync logic of the
BodyArchitect AI single-page frontend: the localStorage-backed session store,
the PrivateRoute guard and the route table (App.js), the Dashboard page's
loader, logout and upload handlers, the Progress page's loader, the Analysis
Detail page's loader, and the auth form's submit handler (AuthPage).

Each event handler of the source is modelled as a pure function from the
pre-state, the storage and the HTTP results of the requests it awaits to an
outcome record collecting the post-state, the storage after the handler, the
navigation target (if any) and the toasts emitted.  console.error calls are
not user-visible and are not modelled as toasts. -/

/-- Durable client storage (localStorage): a partial map from string keys to
string values. -/
def Storage : Type := String → Option String

/-- localStorage.setItem: store a value under a key, replacing any previous
value. -/
def Storage.setItem (s : Storage) (k v : String) : Storage :=
  fun k2 => if k2 = k then some v else s k2

/-- localStorage.removeItem: delete a key. -/
def Storage.removeItem (s : Storage) (k : String) : Storage :=
  fun k2 => if k2 = k then none else s k2

/-- localStorage.getItem: read a key, null when absent. -/
def Storage.getItem (s : Storage) (k : String) : Option String := s k

/-- A storage with no keys set. -/
def emptyStore : Storage := fun _ => none

/-- JavaScript truthiness of a getItem result: null and the empty string are
falsy, every other string is truthy. -/
def jsTruthy : Option String → Bool
  | none => false
  | some s => s != ""

/-- JavaScript String.prototype.startsWith, expressed on the underlying
character lists. -/
def jsStartsWith (s p : String) : Bool := p.data.isPrefixOf s.data

/-- What a route element renders. -/
inductive View where
  | landing
  | authView
  | dashboard
  | analysisDetail (id : String)
  | progressView
  | navigateTo (path : String)
  deriving DecidableEq

/-- The route patterns of the client route table in App.js. -/
inductive RoutePath where
  | root
  | auth
  | dashboard
  | analysisDetail (id : String)
  | progressRoute
  deriving DecidableEq

/-- PrivateRoute (App.js): read the token from storage; render the child when
it is truthy, otherwise navigate to /auth. -/
def privateRoute (store : Storage) (child : View) : View :=
  if jsTruthy (store.getItem "token") then child else View.navigateTo "/auth"

/-- The App route table (App.js): / renders the landing page or redirects to
the dashboard depending on the isAuthenticated state; /auth renders the auth
page; /dashboard, /analysis/:id and /progress are wrapped in PrivateRoute. -/
def renderRoute (isAuthenticated : Bool) (store : Storage) : RoutePath → View
  | .root => if isAuthenticated then View.navigateTo "/dashboard" else View.landing
  | .auth => View.authView
  | .dashboard => privateRoute store View.dashboard
  | .analysisDetail i => privateRoute store (View.analysisDetail i)
  | .progressRoute => privateRoute store View.progressView

/-- The parts of an axios error a handler inspects: error.response?.status
and error.response?.data?.detail. -/
structure HttpError where
  status : Option Nat
  detail : Option String
  deriving DecidableEq

/-- A toast notification shown to the user. -/
inductive Toast where
  | success (msg : String)
  | error (msg : String)
  deriving DecidableEq

/-- The pattern `error.response?.data?.detail || fallback`: the detail when it
is present and truthy (non-empty), otherwise the fallback message. -/
def errMessage (e : HttpError) (fallback : String) : String :=
  match e.detail with
  | some d => if d = "" then fallback else d
  | none => fallback

/-- A user object returned by the backend. -/
structure User where
  id : String
  name : String
  email : String
  deriving DecidableEq

/-- The fields of an Analysis record the modelled code touches. -/
structure Analysis where
  id : String
  analysis_date : String
  progress_score : Option ℚ
  weak_areas : List String
  deriving DecidableEq

/-- A ProgressStats record. -/
structure Stats where
  total_analyses : Nat
  current_streak : Nat
  improvement_percentage : ℚ
  deriving DecidableEq

/-- Promise.all on two concurrent requests: succeeds with the pair iff both
succeed; otherwise rejects with a failing request's error (with a single
failing request this is exact; with several, the source surfaces whichever
rejects first in time, here normalised to argument order). -/
def promiseAll2 {α β : Type} :
    Except HttpError α → Except HttpError β → Except HttpError (α × β)
  | .ok a, .ok b => .ok (a, b)
  | .error e, _ => .error e
  | _, .error e => .error e

/-- Promise.all on three concurrent requests, same convention as
promiseAll2. -/
def promiseAll3 {α β γ : Type} :
    Except HttpError α → Except HttpError β → Except HttpError γ →
    Except HttpError (α × β × γ)
  | .ok a, .ok b, .ok c => .ok (a, b, c)
  | .error e, _, _ => .error e
  | _, .error e, _ => .error e
  | _, _, .error e => .error e

/-- The Dashboard component's local state. -/
structure DashState where
  user : Option User
  analyses : List Analysis
  stats : Option Stats
  uploading : Bool
  loading : Bool
  deriving DecidableEq

/-- The Dashboard state on mount. -/
def DashState.initial : DashState :=
  { user := none, analyses := [], stats := none, uploading := false, loading := true }

/-- The ProgressPage component's local state. -/
structure ProgState where
  analyses : List Analysis
  stats : Option Stats
  loading : Bool
  deriving DecidableEq

/-- The ProgressPage state on mount. -/
def ProgState.initial : ProgState := { analyses := [], stats := none, loading := true }

/-- The AnalysisPage component's local state. -/
structure AnalysisState where
  analysis : Option Analysis
  loading : Bool
  deriving DecidableEq

/-- The AnalysisPage state on mount. -/
def AnalysisState.initial : AnalysisState := { analysis := none, loading := true }

/-- The observable outcome of running a data-loading handler: the component
state afterwards, the storage afterwards, the navigation performed (if any)
and the toasts emitted. -/
structure Outcome (σ : Type) where
  state : σ
  store : Storage
  nav : Option String
  toasts : List Toast

/-- Dashboard handleLogout: remove the token and user keys and navigate
to "/". -/
def handleLogout (store : Storage) : Storage × String :=
  ((store.removeItem "token").removeItem "user", "/")

/-- Dashboard loadData: await Promise.all of the /auth/me, /analysis/history
and /progress/stats requests; on success set the user, analyses and stats
fields; on failure log the error and, when its status is 401, run
handleLogout; finally clear the loading flag. -/
def loadData (st : DashState) (store : Storage)
    (userRes : Except HttpError User)
    (analysesRes : Except HttpError (List Analysis))
    (statsRes : Except HttpError Stats) : Outcome DashState :=
  match promiseAll3 userRes analysesRes statsRes with
  | .ok (u, as, s) =>
      { state := { st with user := some u, analyses := as, stats := some s,
                           loading := false }
        store := store, nav := none, toasts := [] }
  | .error e =>
      if e.status = some 401 then
        { state := { st with loading := false }
          store := (handleLogout store).1
          nav := some (handleLogout store).2
          toasts := [] }
      else
        { state := { st with loading := false }
          store := store, nav := none, toasts := [] }

/-- ProgressPage loadProgress: await Promise.all of the /analysis/history and
/progress/stats requests; on success set the analyses and stats fields; on
failure only log the error; finally clear the loading flag. -/
def loadProgress (st : ProgState) (store : Storage)
    (analysesRes : Except HttpError (List Analysis))
    (statsRes : Except HttpError Stats) : Outcome ProgState :=
  match promiseAll2 analysesRes statsRes with
  | .ok (as, s) =>
      { state := { st with analyses := as, stats := some s, loading := false }
        store := store, nav := none, toasts := [] }
  | .error _ =>
      { state := { st with loading := false }
        store := store, nav := none, toasts := [] }

/-- AnalysisPage loadAnalysis: await the /analysis/:id request; on success set
the analysis field; on failure only log the error; finally clear the loading
flag. -/
def loadAnalysis (st : AnalysisState) (store : Storage)
    (res : Except HttpError Analysis) : Outcome AnalysisState :=
  match res with
  | .ok a =>
      { state := { st with analysis := some a, loading := false }
        store := store, nav := none, toasts := [] }
  | .error _ =>
      { state := { st with loading := false }
        store := store, nav := none, toasts := [] }

/-- A selected file as the upload handler sees it: its declared MIME type
(file.type in the source). -/
structure JsFile where
  name : String
  typ : String
  deriving DecidableEq

/-- The body of a successful /analysis/upload response, as used by the
handler. -/
structure UploadResponse where
  id : String
  deriving DecidableEq

/-- The observable outcome of the upload handler; networkCalled records
whether the POST was issued and uploadingWasSet whether setUploading(true)
ran. -/
structure UploadOutcome where
  state : DashState
  store : Storage
  nav : Option String
  toasts : List Toast
  networkCalled : Bool
  uploadingWasSet : Bool

/-- Dashboard handleFileUpload: return silently when no file is selected;
toast a validation error and return when the declared type is not an image;
otherwise set the uploading flag, POST the file, toast success and navigate
to /analysis/{id} on success, toast the server detail or a generic message on
failure, and finally clear the uploading flag. -/
def handleFileUpload (st : DashState) (store : Storage) (file : Option JsFile)
    (res : Except HttpError UploadResponse) : UploadOutcome :=
  match file with
  | none =>
      { state := st, store := store, nav := none, toasts := []
        networkCalled := false, uploadingWasSet := false }
  | some f =>
      if jsStartsWith f.typ "image/" = false then
        { state := st, store := store, nav := none
          toasts := [Toast.error "Please upload an image file"]
          networkCalled := false, uploadingWasSet := false }
      else
        match res with
        | .ok r =>
            { state := { st with uploading := false }
              store := store
              nav := some ("/analysis/" ++ r.id)
              toasts := [Toast.success "Analysis complete!"]
              networkCalled := true, uploadingWasSet := true }
        | .error e =>
            { state := { st with uploading := false }
              store := store
              nav := none
              toasts := [Toast.error (errMessage e "Upload failed")]
              networkCalled := true, uploadingWasSet := true }

/-- The body of a successful /auth/login or /auth/register response. -/
structure AuthResponse where
  token : String
  user : User
  deriving DecidableEq

/-- JSON.stringify of a user object as stored under the user key. -/
def jsonStringifyUser (u : User) : String :=
  "\x7b\"id\":\"" ++ u.id ++ "\",\"name\":\"" ++ u.name ++
    "\",\"email\":\"" ++ u.email ++ "\"\x7d"

/-- The observable outcome of the auth submit handler. -/
structure AuthOutcome where
  store : Storage
  isAuthenticated : Bool
  nav : Option String
  toasts : List Toast
  loading : Bool

/-- AuthPage handleSubmit: POST to /auth/login or /auth/register; on success
store the token and the serialized user, toast a welcome message, invoke
onAuthSuccess (which sets App's isAuthenticated state) and navigate to
/dashboard; on failure toast the server detail or a generic message; finally
clear the loading flag. -/
def handleSubmit (store : Storage) (isAuthenticated : Bool) (isLogin : Bool)
    (res : Except HttpError AuthResponse) : AuthOutcome :=
  match res with
  | .ok r =>
      { store := (store.setItem "token" r.token).setItem "user"
          (jsonStringifyUser r.user)
        isAuthenticated := true
        nav := some "/dashboard"
        toasts := [Toast.success
          (if isLogin then "Welcome back!" else "Account created successfully!")]
        loading := false }
  | .error e =>
      { store := store
        isAuthenticated := isAuthenticated
        nav := none
        toasts := [Toast.error (errMessage e "Authentication failed")]
        loading := false }

/-- ECMAScript Number.prototype.toFixed with 0 fraction digits at value q:
the integer n with n - q closest to zero, ties resolved to the larger n;
equivalently the floor of q + 1/2. -/
def toFixed0 (q : ℚ) : ℤ := ⌊q + 1 / 2⌋

/-- The score text rendered by the expression
analysis.progress_score?.toFixed(0) || 50, which appears identically in the
analysis detail card (AnalysisPage), the dashboard analysis card and the
progress timeline entry: toFixed of the score when the field is present
(falling through the JS or-operator only if that string were empty), the
number 50 rendered as text otherwise. -/
def scoreText (ps : Option ℚ) : String :=
  match ps.map (fun q => toString (toFixed0 q)) with
  | some s => if s = "" then "50" else s
  | none => "50"

/-- Auxiliary: Nat.toDigitsCore never empties a non-empty accumulator. -/
lemma toDigitsCore_ne_nil (b : Nat) : ∀ (f n : Nat) (ds : List Char), ds ≠ [] →
    Nat.toDigitsCore b f n ds ≠ [] := by
  intro f
  induction f with
  | zero => intro n ds h; simpa [Nat.toDigitsCore] using h
  | succ f ih =>
    intro n ds h
    simp only [Nat.toDigitsCore]
    split
    · simp
    · exact ih _ _ (by simp)

/-- Auxiliary: the decimal digit list of a natural number is non-empty. -/
lemma toDigits_ne_nil (b n : Nat) : Nat.toDigits b n ≠ [] := by
  unfold Nat.toDigits
  simp only [Nat.toDigitsCore]
  split
  · simp
  · exact toDigitsCore_ne_nil b _ _ _ (by simp)

/-- Auxiliary: the decimal representation of a natural number is non-empty. -/
lemma natRepr_ne_empty (n : Nat) : Nat.repr n ≠ "" := by
  unfold Nat.repr
  intro h
  apply toDigits_ne_nil 10 n
  simpa [List.asString] using congrArg String.data h

/-- Auxiliary: the decimal representation of an integer is non-empty, hence
truthy as a JavaScript string. -/
lemma toString_int_ne_empty (i : ℤ) : toString i ≠ "" := by
  cases i with
  | ofNat m => simpa [toString, Int.repr] using natRepr_ne_empty m
  | negSucc m =>
    intro h
    have h2 := congrArg String.length h
    simp [toString, Int.repr] at h2
    exact absurd h2.1 (by decide)

/-- C9: when the change event carries no file, the upload handler returns
immediately: no network request, no toast, navigation or state change of any
kind, and the uploading flag is never set. -/
theorem c9_theorem (st : DashState) (store : Storage)
    (res : Except HttpError UploadResponse) :
    handleFileUpload st store none res =
      { state := st, store := store, nav := none, toasts := []
        networkCalled := false, uploadingWasSet := false } := rfl

/-- C5: a selected file whose declared media type does not start with image/
triggers no network request, shows exactly the validation toast, and changes
no state: the component state, storage and navigation are untouched and the
uploading flag is never set. -/
theorem c5_theorem (st : DashState) (store : Storage) (f : JsFile)
    (res : Except HttpError UploadResponse)
    (h : jsStartsWith f.typ "image/" = false) :
    handleFileUpload st store (some f) res =
      { state := st, store := store, nav := none
        toasts := [Toast.error "Please upload an image file"]
        networkCalled := false, uploadingWasSet := false } := by
  simp [handleFileUpload, h]

/-- Witness for C5 at a text file. -/
theorem c5_witness :
    jsStartsWith "text/plain" "image/" = false ∧
    handleFileUpload DashState.initial emptyStore
        (some { name := "notes.txt", typ := "text/plain" })
        (Except.ok { id := "a1" }) =
      { state := DashState.initial, store := emptyStore, nav := none
        toasts := [Toast.error "Please upload an image file"]
        networkCalled := false, uploadingWasSet := false } :=
  ⟨by decide,
   c5_theorem DashState.initial emptyStore { name := "notes.txt", typ := "text/plain" }
     (Except.ok { id := "a1" }) (by decide)⟩

/-- C4: for an accepted upload (a selected file of image type): on success the
handler navigates to /analysis/{returned id} and the uploading flag ends
false; on failure it does not navigate, surfaces the server detail when
present and non-empty, otherwise the generic message, leaves the storage (and
hence the session) untouched, and the uploading flag ends false. -/
theorem c4_theorem (st : DashState) (store : Storage) (f : JsFile)
    (res : Except HttpError UploadResponse)
    (himg : jsStartsWith f.typ "image/" = true) :
    (∀ r, res = .ok r →
       (handleFileUpload st store (some f) res).nav = some ("/analysis/" ++ r.id) ∧
       (handleFileUpload st store (some f) res).state.uploading = false) ∧
    (∀ e, res = .error e →
       (handleFileUpload st store (some f) res).nav = none ∧
       (handleFileUpload st store (some f) res).store = store ∧
       (handleFileUpload st store (some f) res).state.uploading = false ∧
       (∀ d, e.detail = some d → d ≠ "" →
          (handleFileUpload st store (some f) res).toasts = [Toast.error d]) ∧
       (e.detail = none →
          (handleFileUpload st store (some f) res).toasts =
            [Toast.error "Upload failed"])) := by
  constructor
  · rintro r rfl
    simp [handleFileUpload, himg]
  · rintro e rfl
    refine ⟨by simp [handleFileUpload, himg], by simp [handleFileUpload, himg],
      by simp [handleFileUpload, himg], ?_, ?_⟩
    · rintro d hd hne
      simp [handleFileUpload, himg, errMessage, hd, hne]
    · intro hd
      simp [handleFileUpload, himg, errMessage, hd]

/-- Witness for C4 at a successful png upload. -/
theorem c4_witness :
    jsStartsWith "image/png" "image/" = true ∧
    (handleFileUpload DashState.initial emptyStore
        (some { name := "p.png", typ := "image/png" })
        (Except.ok { id := "a7" })).nav = some "/analysis/a7" :=
  ⟨by decide,
   ((c4_theorem DashState.initial emptyStore { name := "p.png", typ := "image/png" }
       (Except.ok { id := "a7" }) (by decide)).1 { id := "a7" } rfl).1⟩

/-- C3: the joined loads are all-or-nothing: if any of the Dashboard's three
fetches fails, none of its user, analyses and stats fields is set, and if
either of the Progress page's two fetches fails, neither of its analyses and
stats fields is set. -/
theorem c3_theorem (st : DashState) (pst : ProgState) (store : Storage)
    (u : Except HttpError User) (a a2 : Except HttpError (List Analysis))
    (s s2 : Except HttpError Stats)
    (hdash : (∃ e, u = .error e) ∨ (∃ e, a = .error e) ∨ (∃ e, s = .error e))
    (hprog : (∃ e, a2 = .error e) ∨ (∃ e, s2 = .error e)) :
    ((loadData st store u a s).state.user = st.user ∧
     (loadData st store u a s).state.analyses = st.analyses ∧
     (loadData st store u a s).state.stats = st.stats) ∧
    ((loadProgress pst store a2 s2).state.analyses = pst.analyses ∧
     (loadProgress pst store a2 s2).state.stats = pst.stats) := by
  constructor
  · rcases u with eu | vu <;> rcases a with ea | va <;> rcases s with es | vs <;>
      try (simp only [loadData, promiseAll3]; split <;> simp)
    rcases hdash with ⟨e, he⟩ | ⟨e, he⟩ | ⟨e, he⟩ <;> simp at he
  · rcases a2 with ea | va <;> rcases s2 with es | vs <;>
      try simp [loadProgress, promiseAll2]
    rcases hprog with ⟨e, he⟩ | ⟨e, he⟩ <;> simp at he

/-- Witness for C3: a failing user fetch on the Dashboard and a failing
history fetch on the Progress page leave every data field unset. -/
theorem c3_witness :
    (∃ e, (Except.error { status := some 500, detail := none } :
        Except HttpError User) = Except.error e) ∧
    (loadData DashState.initial emptyStore
        (Except.error { status := some 500, detail := none })
        (Except.ok []) (Except.ok { total_analyses := 0, current_streak := 0,
                                    improvement_percentage := 0 })).state.user =
      DashState.initial.user :=
  ⟨⟨{ status := some 500, detail := none }, rfl⟩,
   ((c3_theorem DashState.initial ProgState.initial emptyStore
       (Except.error { status := some 500, detail := none })
       (Except.ok []) (Except.error { status := some 500, detail := none })
       (Except.ok { total_analyses := 0, current_streak := 0,
                    improvement_percentage := 0 })
       (Except.ok { total_analyses := 0, current_streak := 0,
                    improvement_percentage := 0 })
       (Or.inl ⟨{ status := some 500, detail := none }, rfl⟩)
       (Or.inl ⟨{ status := some 500, detail := none }, rfl⟩)).1).1⟩

/-- C2 fails as stated: a stored empty-string token is a present token, yet
the guard redirects to /auth instead of rendering the child, because the
source checks JavaScript truthiness of the token. -/
theorem c2_counterexample :
    (emptyStore.setItem "token" "") "token" = some "" ∧
    privateRoute (emptyStore.setItem "token" "") View.dashboard =
      View.navigateTo "/auth" := ⟨rfl, rfl⟩

/-- C2 amended: rendering any protected route with no stored token redirects
to /auth and never renders the child; a stored non-empty token renders the
child unconditionally (the guard checks only JS truthiness of the token, so
an empty-string token behaves like an absent one; no other format or expiry
validation is performed). -/
theorem c2_theorem (store : Storage) (auth : Bool) (i : String) :
    (store "token" = none →
       renderRoute auth store RoutePath.dashboard = View.navigateTo "/auth" ∧
       renderRoute auth store (RoutePath.analysisDetail i) = View.navigateTo "/auth" ∧
       renderRoute auth store RoutePath.progressRoute = View.navigateTo "/auth") ∧
    (∀ t, t ≠ "" → store "token" = some t →
       renderRoute auth store RoutePath.dashboard = View.dashboard ∧
       renderRoute auth store (RoutePath.analysisDetail i) = View.analysisDetail i ∧
       renderRoute auth store RoutePath.progressRoute = View.progressView) := by
  constructor
  · intro h
    simp [renderRoute, privateRoute, Storage.getItem, jsTruthy, h]
  · intro t ht h
    simp [renderRoute, privateRoute, Storage.getItem, jsTruthy, h, ht]

/-- Witness for C2 amended at a concrete non-empty token. -/
theorem c2_witness :
    ("abc123" : String) ≠ "" ∧
    renderRoute false (emptyStore.setItem "token" "abc123") RoutePath.dashboard =
      View.dashboard :=
  ⟨by decide,
   ((c2_theorem (emptyStore.setItem "token" "abc123") false "x").2 "abc123"
     (by decide) rfl).1⟩

/-- C6 fails as stated: with the user and history fetches succeeding and the
stats fetch failing with a 500, the session is indeed preserved, but the
Dashboard emits no toast and its post-load state is exactly the empty mount
state with loading cleared, which carries no error annotation the render
could show; no error indication reaches the user. -/
theorem c6_counterexample :
    (loadData DashState.initial
        (fun k => if k = "token" then some "tok" else
                  if k = "user" then some "uj" else none)
        (Except.ok { id := "u1", name := "Ann", email := "ann@example.com" })
        (Except.ok [])
        (Except.error { status := some 500, detail := none })).toasts = [] ∧
    (loadData DashState.initial
        (fun k => if k = "token" then some "tok" else
                  if k = "user" then some "uj" else none)
        (Except.ok { id := "u1", name := "Ann", email := "ann@example.com" })
        (Except.ok [])
        (Except.error { status := some 500, detail := none })).store "token" =
      some "tok" ∧
    (loadData DashState.initial
        (fun k => if k = "token" then some "tok" else
                  if k = "user" then some "uj" else none)
        (Except.ok { id := "u1", name := "Ann", email := "ann@example.com" })
        (Except.ok [])
        (Except.error { status := some 500, detail := none })).state =
      { DashState.initial with loading := false } := ⟨rfl, rfl, rfl⟩

/-- C6 amended: when the stats fetch fails with a non-authorization error and
the other Dashboard fetches succeed, the session is preserved, there is no
navigation, and the page settles in the loaded-but-empty state without
crashing; however no error indication is emitted: the handler produces no
toast and the component state carries no error annotation (the failure is
only logged to the console). -/
theorem c6_theorem (st : DashState) (store : Storage) (u : User)
    (as : List Analysis) (e : HttpError) (hne : ¬ e.status = some 401) :
    (loadData st store (.ok u) (.ok as) (.error e)).store = store ∧
    (loadData st store (.ok u) (.ok as) (.error e)).nav = none ∧
    (loadData st store (.ok u) (.ok as) (.error e)).toasts = [] ∧
    (loadData st store (.ok u) (.ok as) (.error e)).state =
      { st with loading := false } := by
  simp [loadData, promiseAll3, hne]

/-- Witness for C6 amended at a concrete 500 error. -/
theorem c6_witness :
    ¬ (({ status := some 500, detail := none } : HttpError).status = some 401) ∧
    (loadData DashState.initial emptyStore
        (Except.ok { id := "u1", name := "Ann", email := "ann@example.com" })
        (Except.ok [])
        (Except.error { status := some 500, detail := none })).nav = none :=
  ⟨by decide,
   (c6_theorem DashState.initial emptyStore
       { id := "u1", name := "Ann", email := "ann@example.com" } []
       { status := some 500, detail := none } (by decide)).2.1⟩

/-- C1 fails as stated: a Progress page fetch failing with 401 clears nothing
and redirects nowhere — the token stays in storage and no navigation happens
(the source only logs the error). -/
theorem c1_counterexample :
    (loadProgress ProgState.initial
        (fun k => if k = "token" then some "tok" else
                  if k = "user" then some "uj" else none)
        (Except.error { status := some 401, detail := none })
        (Except.ok { total_analyses := 0, current_streak := 0,
                     improvement_percentage := 0 })).store "token" = some "tok" ∧
    (loadProgress ProgState.initial
        (fun k => if k = "token" then some "tok" else
                  if k = "user" then some "uj" else none)
        (Except.error { status := some 401, detail := none })
        (Except.ok { total_analyses := 0, current_streak := 0,
                     improvement_percentage := 0 })).nav = none := ⟨rfl, rfl⟩

/-- C1 amended: only the Dashboard loader implements the 401 policy: when its
joined fetch fails with status 401 it removes both session keys and navigates
to "/". The Progress and Analysis Detail loaders and the upload request never
touch the storage and never redirect on failure, 401 included (the loaders
only log, the upload only toasts). -/
theorem c1_theorem (st : DashState) (pst : ProgState) (ast : AnalysisState)
    (store : Storage) (u : Except HttpError User)
    (a a2 : Except HttpError (List Analysis)) (s s2 : Except HttpError Stats)
    (ares : Except HttpError Analysis) (file : Option JsFile)
    (ures : Except HttpError UploadResponse) (e : HttpError)
    (hjoin : promiseAll3 u a s = .error e) (h401 : e.status = some 401) :
    ((loadData st store u a s).store "token" = none ∧
     (loadData st store u a s).store "user" = none ∧
     (loadData st store u a s).nav = some "/") ∧
    ((loadProgress pst store a2 s2).store = store ∧
     (loadProgress pst store a2 s2).nav = none) ∧
    ((loadAnalysis ast store ares).store = store ∧
     (loadAnalysis ast store ares).nav = none) ∧
    ((handleFileUpload st store file ures).store = store ∧
     ∀ e2, ures = .error e2 → (handleFileUpload st store file ures).nav = none) := by
  refine ⟨?_, ?_, ?_, ?_⟩
  · simp only [loadData, hjoin, h401]
    refine ⟨?_, ?_, rfl⟩ <;>
      simp [handleLogout, Storage.removeItem, if_neg, reduceIte]
  · rcases a2 with ea | va <;> rcases s2 with es | vs <;>
      simp [loadProgress, promiseAll2]
  · rcases ares with ea | va <;> simp [loadAnalysis]
  · constructor
    · rcases file with _ | f
      · rfl
      · by_cases himg : jsStartsWith f.typ "image/" = false <;>
          rcases ures with e2 | r <;> simp [handleFileUpload, himg]
    · rintro e2 rfl
      rcases file with _ | f
      · rfl
      · by_cases himg : jsStartsWith f.typ "image/" = false <;>
          simp [handleFileUpload, himg]

/-- Witness for C1 amended: a Dashboard load whose user fetch fails with 401
ends with the token removed from storage. -/
theorem c1_witness :
    promiseAll3 (Except.error { status := some 401, detail := none } :
          Except HttpError User)
        (Except.ok ([] : List Analysis))
        (Except.ok ({ total_analyses := 0, current_streak := 0,
                      improvement_percentage := 0 } : Stats)) =
      Except.error { status := some 401, detail := none } ∧
    (loadData DashState.initial
        (fun k => if k = "token" then some "tok" else
                  if k = "user" then some "uj" else none)
        (Except.error { status := some 401, detail := none })
        (Except.ok []) (Except.ok { total_analyses := 0, current_streak := 0,
                                    improvement_percentage := 0 })).store "token" =
      none :=
  ⟨rfl,
   ((c1_theorem DashState.initial ProgState.initial AnalysisState.initial
       (fun k => if k = "token" then some "tok" else
                 if k = "user" then some "uj" else none)
       (Except.error { status := some 401, detail := none })
       (Except.ok []) (Except.ok [])
       (Except.ok { total_analyses := 0, current_streak := 0,
                    improvement_percentage := 0 })
       (Except.ok { total_analyses := 0, current_streak := 0,
                    improvement_percentage := 0 })
       (Except.ok { id := "a1", analysis_date := "2025-01-01",
                    progress_score := none, weak_areas := [] })
       none (Except.ok { id := "a1" })
       { status := some 401, detail := none } rfl rfl).1).1⟩

/-- C7 fails as stated: a successful login whose response carries an
empty-string token does populate the session (the empty token and the
serialized user are both written) and navigates to /dashboard, but the
subsequent render of the dashboard route is the redirect to the auth entry
point, not the Dashboard, because PrivateRoute checks only JS truthiness of
the stored token. -/
theorem c7_counterexample :
    (handleSubmit emptyStore false true
        (Except.ok { token := "",
                     user := { id := "u1", name := "Ann",
                               email := "ann@example.com" } })).store "token" =
      some "" ∧
    (handleSubmit emptyStore false true
        (Except.ok { token := "",
                     user := { id := "u1", name := "Ann",
                               email := "ann@example.com" } })).nav =
      some "/dashboard" ∧
    renderRoute (handleSubmit emptyStore false true
          (Except.ok { token := "",
                       user := { id := "u1", name := "Ann",
                                 email := "ann@example.com" } })).isAuthenticated
        (handleSubmit emptyStore false true
          (Except.ok { token := "",
                       user := { id := "u1", name := "Ann",
                                 email := "ann@example.com" } })).store
        RoutePath.dashboard = View.navigateTo "/auth" := ⟨rfl, rfl, rfl⟩

/-- C7 amended: every successful login or register stores the token and the
serialized user, sets the authenticated flag and navigates to /dashboard;
when the issued token is non-empty the subsequent render of the dashboard
route is the Dashboard, not the auth page, while an empty-string token is
treated by the guard like an absent one (the same truthiness edge as C2) and
renders the redirect to /auth instead. -/
theorem c7_theorem (store : Storage) (isAuth isLogin : Bool) (r : AuthResponse) :
    (handleSubmit store isAuth isLogin (.ok r)).store "token" = some r.token ∧
    (handleSubmit store isAuth isLogin (.ok r)).store "user" =
      some (jsonStringifyUser r.user) ∧
    (handleSubmit store isAuth isLogin (.ok r)).isAuthenticated = true ∧
    (handleSubmit store isAuth isLogin (.ok r)).nav = some "/dashboard" ∧
    (r.token ≠ "" →
      renderRoute (handleSubmit store isAuth isLogin (.ok r)).isAuthenticated
          (handleSubmit store isAuth isLogin (.ok r)).store RoutePath.dashboard =
        View.dashboard ∧
      renderRoute (handleSubmit store isAuth isLogin (.ok r)).isAuthenticated
          (handleSubmit store isAuth isLogin (.ok r)).store RoutePath.dashboard ≠
        View.authView) ∧
    (r.token = "" →
      renderRoute (handleSubmit store isAuth isLogin (.ok r)).isAuthenticated
          (handleSubmit store isAuth isLogin (.ok r)).store RoutePath.dashboard =
        View.navigateTo "/auth") := by
  have htok : (handleSubmit store isAuth isLogin (.ok r)).store "token" =
      some r.token := by
    simp [handleSubmit, Storage.setItem]
  refine ⟨htok, ?_, rfl, rfl, ?_, ?_⟩
  · simp [handleSubmit, Storage.setItem]
  · intro h
    constructor <;>
      simp [renderRoute, privateRoute, Storage.getItem, htok, jsTruthy, h]
  · intro h
    simp [renderRoute, privateRoute, Storage.getItem, htok, jsTruthy, h]

/-- Witness for C7 amended at a concrete successful login with a non-empty
token. -/
theorem c7_witness :
    ("tok9" : String) ≠ "" ∧
    renderRoute (handleSubmit emptyStore false true
          (Except.ok { token := "tok9",
                       user := { id := "u1", name := "Ann",
                                 email := "ann@example.com" } })).isAuthenticated
        (handleSubmit emptyStore false true
          (Except.ok { token := "tok9",
                       user := { id := "u1", name := "Ann",
                                 email := "ann@example.com" } })).store
        RoutePath.dashboard = View.dashboard :=
  ⟨by decide,
   ((c7_theorem emptyStore false true
       { token := "tok9", user := { id := "u1", name := "Ann",
                                    email := "ann@example.com" } }).2.2.2.2.1
     (by decide)).1⟩

/-- C8: durable storage is confined to the token and user keys: populating
the session (successful auth submit) writes the token and the serialized user
and nothing else; clearing it (logout) removes exactly those two keys; and no
handler of the embedding — auth submit with any result, logout, the three
page loaders and the upload handler — changes any key other than token and
user. -/
theorem c8_theorem (store : Storage) (isAuth isLogin : Bool) (r : AuthResponse)
    (st : DashState) (pst : ProgState) (ast : AnalysisState)
    (u : Except HttpError User) (a a2 : Except HttpError (List Analysis))
    (s s2 : Except HttpError Stats) (ares : Except HttpError Analysis)
    (file : Option JsFile) (ures : Except HttpError UploadResponse)
    (sres : Except HttpError AuthResponse)
    (k : String) (hk1 : k ≠ "token") (hk2 : k ≠ "user") :
    ((handleSubmit store isAuth isLogin (.ok r)).store "token" = some r.token ∧
     (handleSubmit store isAuth isLogin (.ok r)).store "user" =
       some (jsonStringifyUser r.user)) ∧
    ((handleLogout store).1 "token" = none ∧
     (handleLogout store).1 "user" = none) ∧
    ((handleSubmit store isAuth isLogin sres).store k = store k ∧
     (handleLogout store).1 k = store k ∧
     (loadData st store u a s).store k = store k ∧
     (loadProgress pst store a2 s2).store k = store k ∧
     (loadAnalysis ast store ares).store k = store k ∧
     (handleFileUpload st store file ures).store k = store k) := by
  refine ⟨⟨?_, ?_⟩, ⟨?_, ?_⟩, ?_, ?_, ?_, ?_, ?_, ?_⟩
  · simp [handleSubmit, Storage.setItem]
  · simp [handleSubmit, Storage.setItem]
  · simp [handleLogout, Storage.removeItem]
  · simp [handleLogout, Storage.removeItem]
  · rcases sres with e | v <;> simp [handleSubmit, Storage.setItem, hk1, hk2]
  · simp [handleLogout, Storage.removeItem, hk1, hk2]
  · rcases u with eu | vu <;> rcases a with ea | va <;> rcases s with es | vs <;>
      simp only [loadData, promiseAll3] <;>
      try split <;>
      simp [handleLogout, Storage.removeItem, hk1, hk2]
  · rcases a2 with ea | va <;> rcases s2 with es | vs <;>
      simp [loadProgress, promiseAll2]
  · rcases ares with ea | va <;> simp [loadAnalysis]
  · rcases file with _ | f
    · rfl
    · by_cases himg : jsStartsWith f.typ "image/" = false <;>
        rcases ures with e2 | rr <;> simp [handleFileUpload, himg]

/-- Witness for C8 at a concrete third key. -/
theorem c8_witness :
    ("theme" : String) ≠ "token" ∧ ("theme" : String) ≠ "user" ∧
    (handleLogout (emptyStore.setItem "theme" "dark")).1 "theme" =
      (emptyStore.setItem "theme" "dark") "theme" :=
  ⟨by decide, by decide,
   (c8_theorem (emptyStore.setItem "theme" "dark") false true
       { token := "t", user := { id := "u", name := "N", email := "e" } }
       DashState.initial ProgState.initial AnalysisState.initial
       (Except.ok { id := "u", name := "N", email := "e" })
       (Except.ok []) (Except.ok [])
       (Except.ok { total_analyses := 0, current_streak := 0,
                    improvement_percentage := 0 })
       (Except.ok { total_analyses := 0, current_streak := 0,
                    improvement_percentage := 0 })
       (Except.ok { id := "a1", analysis_date := "d",
                    progress_score := none, weak_areas := [] })
       none (Except.ok { id := "a1" })
       (Except.ok { token := "t", user := { id := "u", name := "N", email := "e" } })
       "theme" (by decide) (by decide)).2.2.2.1⟩

/-- C10: the rendered progress score equals the score rounded by toFixed(0)
when the progress_score field is present (the JS or-fallback never fires on a
present score, since an integer's decimal string is never empty, so even a
score of 0 renders as 0 and not as the fallback), and it is the literal 50
when the field is absent. -/
theorem c10_theorem (ps : Option ℚ) :
    (∀ q, ps = some q → scoreText ps = toString (toFixed0 q)) ∧
    (ps = none → scoreText ps = "50") := by
  constructor
  · rintro q rfl
    simp only [scoreText, Option.map_some']
    rw [if_neg (toString_int_ne_empty _)]
  · rintro rfl
    rfl

/-- Witness for C10: a present score of 147/2 renders as its toFixed string
and an absent score as 50. -/
theorem c10_witness :
    (some (147 / 2 : ℚ) = some (147 / 2 : ℚ)) ∧
    scoreText (some (147 / 2 : ℚ)) = toString (toFixed0 (147 / 2 : ℚ)) ∧
    scoreText none = "50" :=
  ⟨rfl, (c10_theorem (some (147 / 2))).1 (147 / 2) rfl,
   (c10_theorem none).2 rfl⟩
